import Mathlib

/-!
Shallow embedding of the session authentication gateway of the nfl-pickem
HTTP server (src/http/server.go) and the current-week handler
(src/http/current.go), together with theorems settling the frozen claims
about that code.

Modelling conventions:
- A Go handler `func(w http.ResponseWriter, r *http.Request)` becomes a
  Lean function from a `Request` and the accumulated `Response` to a new
  `Response` (plus instrumentation counters where a claim speaks about
  the number of collaborator calls or whether the wrapped handler ran).
- Go `(T, error)` returns become `T × Option String` pairs (the zero
  value accompanies a non-nil error, as in Go), or `Except String T`
  where only the error presence matters.
- The gorilla/securecookie codec and the datastore are external
  collaborators: they are modelled as records of functions and the
  theorems quantify over them.
- A nil-pointer dereference (a Go runtime panic) is modelled by an
  `Option` result whose `none` marks the panic.
-/

/-- Modelled from the spec: the nflpickem.User identity value (its Go
definition is outside src/). The gateway only transports it; the fields
used by the gateway are FirstName and Email, LastName is kept as a
representative extra profile field. -/
structure User where
  firstName : String
  lastName : String
  email : String
deriving DecidableEq, Repr

/-- The zero value of User, which Go returns alongside every error. -/
def zeroUser : User := ⟨"", "", ""⟩

/-- An http.Cookie, restricted to the fields the gateway reads or writes
(Name, Value, Secure, HttpOnly, MaxAge). Go semantics: maxAge = 0 means
the Max-Age attribute is unset (session cookie), maxAge < 0 deletes the
cookie now. -/
structure Cookie where
  name : String
  value : String := ""
  secure : Bool := false
  httpOnly : Bool := false
  maxAge : Int := 0
deriving DecidableEq, Repr

/-- The NFL week value returned by the datastore. Modelled from the spec:
the concrete nflpickem.Week type is outside src/; only its zero value
matters to the claims, so a representative pair of numeric fields is used. -/
structure Week where
  year : Int := 0
  week : Int := 0
deriving DecidableEq, Repr

/-- The zero value of Week. -/
def zeroWeek : Week := {}

/-- Modelled from the spec: the JSON bodies written by WriteJSON at the
two call sites the claims mention (the loginState projection and the
current-week payload). -/
inductive Payload where
  | loginStateBody (name : String) (username : String)
  | weekBody (week : Week)
deriving DecidableEq, Repr

/-- Modelled from the spec: a single JSON write to the response body,
either the error envelope with its HTTP status, the success envelope,
or a plain payload. -/
inductive JSONWrite where
  | errorEnvelope (status : Nat) (message : String)
  | successEnvelope (message : String)
  | payload (p : Payload)
deriving DecidableEq, Repr

/-- The observable effects accumulated on an http.ResponseWriter:
Set-Cookie headers and JSON body writes, each in emission order. -/
structure Response where
  cookies : List Cookie := []
  writes : List JSONWrite := []
deriving DecidableEq, Repr

/-- Modelled from the spec: WriteJSONError emits the JSON error envelope
with the given HTTP status code. -/
def WriteJSONError (w : Response) (status : Nat) (msg : String) : Response :=
  { w with writes := w.writes ++ [.errorEnvelope status msg] }

/-- Modelled from the spec: WriteJSONSuccess emits the JSON success
envelope with the given message. -/
def WriteJSONSuccess (w : Response) (msg : String) : Response :=
  { w with writes := w.writes ++ [.successEnvelope msg] }

/-- Modelled from the spec: WriteJSON emits an arbitrary JSON payload. -/
def WriteJSON (w : Response) (p : Payload) : Response :=
  { w with writes := w.writes ++ [.payload p] }

/-- http.SetCookie attaches a Set-Cookie header to the response. -/
def setCookie (w : Response) (c : Cookie) : Response :=
  { w with cookies := w.cookies ++ [c] }

/-- The result of r.Cookie("nflpickem"): the cookie when present, the
http.ErrNoCookie error when absent, or (to mirror the error comparison
in logout, src/http/server.go line 124) some other read error. -/
inductive CookieLookup where
  | found (c : Cookie)
  | noCookie
  | otherError (msg : String)
deriving DecidableEq, Repr

/-- A context value: either a stored nflpickem.User or a value of some
other dynamic type placed there by unrelated code (on which the type
assertion in retrieveUser fails). -/
inductive CtxVal where
  | user (u : User)
  | other (s : String)
deriving DecidableEq, Repr

/-- A request context: key-value entries, most recent first, as built by
context.WithValue. -/
structure Context where
  entries : List (String × CtxVal) := []
deriving DecidableEq, Repr

/-- context.WithValue: the new binding shadows older ones. -/
def Context.withValue (ctx : Context) (k : String) (v : CtxVal) : Context :=
  ⟨(k, v) :: ctx.entries⟩

/-- ctx.Value: first (most recent) binding for the key, if any. -/
def Context.value (ctx : Context) (k : String) : Option CtxVal :=
  go ctx.entries
where
  go : List (String × CtxVal) → Option CtxVal
    | [] => none
    | (k2, v) :: rest => if k2 = k then some v else go rest

/-- The inbound request, restricted to what the gateway reads: the
result of looking up the "nflpickem" cookie, the Basic Auth credentials
when the Authorization header carries them, and the request context. -/
structure Request where
  cookieRes : CookieLookup
  basicAuth : Option (String × String)
  ctx : Context := {}
deriving DecidableEq, Repr

/-- The gorilla/securecookie codec, an external collaborator: Encode
seals a named value into an opaque string, Decode reverses it; both can
fail. -/
structure SecureCookie where
  encode : String → User → Except String String
  decode : String → String → Except String User

/-- The slice of the nflpickem.Service datastore the gateway calls:
CheckCredentials returns the matching identity or an error. -/
structure Service where
  checkCredentials : String → String → Except String User

/-- The datastore interface used by the current-week handler:
CurrentWeek, Go style, returns a week value together with an optional
error (the value accompanying a non-nil error is the zero value by Go
convention). The argument stands for the time.Now() instant. -/
structure Weeker where
  currentWeekAt : Int → Week × Option String

/-- The Server fields the claims depend on: the securecookie codec and
the datastore. The address, route table and time source of the Go struct
play no part in any claim and are omitted. -/
structure Server where
  sc : SecureCookie
  db : Service

/-- newEncodedCookie, src/http/server.go lines 107-119: encode the value
under the given name; on success build a cookie with Secure=false,
HttpOnly=true and all remaining fields at their zero values (MaxAge
unset). -/
def Server.newEncodedCookie (s : Server) (name : String) (value : User) :
    Except String Cookie :=
  match s.sc.encode name value with
  | .error e => .error e
  | .ok encoded =>
      .ok { name := name, value := encoded, secure := false, httpOnly := true }

/-- login, src/http/server.go lines 80-104. The second component counts
the calls made to db.CheckCredentials while handling the request. -/
def Server.login (s : Server) (w : Response) (r : Request) : Response × Nat :=
  match r.basicAuth with
  | none => (WriteJSONError w 400 "missing credentials", 0)
  | some (u, p) =>
      match s.db.checkCredentials u p with
      | .error e => (WriteJSONError w 500 e, 1)
      | .ok user =>
          match s.newEncodedCookie "nflpickem" user with
          | .error e => (WriteJSONError w 500 e, 1)
          | .ok cookie =>
              (WriteJSONSuccess (setCookie w cookie) "successfully logged in", 1)

/-- logout, src/http/server.go lines 122-133. The Go code lets the
http.ErrNoCookie error pass its error check and then unconditionally
assigns cookie.MaxAge = -1; when no cookie was present the cookie
pointer returned by r.Cookie is nil, so that assignment is a nil-pointer
dereference. The `none` result marks that runtime panic. -/
def Server.logout (_s : Server) (w : Response) (r : Request) : Option Response :=
  match r.cookieRes with
  | .otherError e => some (WriteJSONError w 500 e)
  | .noCookie => none
  | .found c =>
      some (WriteJSONSuccess (setCookie w { c with maxAge := -1 }) "succesful logout")

/-- The error value errNoLogin, src/http/server.go line 182. -/
def errNoLogin : String := "no login information found"

/-- The error value errNoUser, src/http/server.go line 181. -/
def errNoUser : String := "no user information stored in context"

/-- The outcome of verifyLogin: the response (possibly with a freshly
sealed cookie attached), the returned user with the Go-style optional
error, and the number of db.CheckCredentials calls made. -/
structure VerifyResult where
  w : Response
  user : User
  err : Option String
  verifierCalls : Nat
deriving Repr

/-- The Basic Auth fallback tier of verifyLogin, src/http/server.go
lines 205-223 (the code underneath the cookie fast path, reached by
fall-through): require Basic Auth, call the verifier, seal a new cookie
and attach it. -/
def Server.verifyBasic (s : Server) (w : Response) (r : Request) : VerifyResult :=
  match r.basicAuth with
  | none => ⟨w, zeroUser, some errNoLogin, 0⟩
  | some (u, p) =>
      match s.db.checkCredentials u p with
      | .error e => ⟨w, zeroUser, some e, 1⟩
      | .ok user =>
          match s.newEncodedCookie "nflpickem" user with
          | .error e => ⟨w, zeroUser, some e, 1⟩
          | .ok cookie => ⟨setCookie w cookie, user, none, 1⟩

/-- verifyLogin, src/http/server.go lines 196-224: if the cookie is
present and decodes, return that identity at once (fast path); otherwise
fall through to the Basic Auth tier. -/
def Server.verifyLogin (s : Server) (w : Response) (r : Request) : VerifyResult :=
  match r.cookieRes with
  | .found c =>
      match s.sc.decode "nflpickem" c.value with
      | .ok user => ⟨w, user, none, 0⟩
      | .error _ => s.verifyBasic w r
  | _ => s.verifyBasic w r

/-- The cookie fast path of verifyLogin fails: either no cookie was
found or the found cookie does not decode. -/
def cookieFastPathFails (s : Server) (r : Request) : Bool :=
  match r.cookieRes with
  | .found c =>
      match s.sc.decode "nflpickem" c.value with
      | .ok _ => false
      | .error _ => true
  | _ => true

/-- The clearing cookie built inline in requireLogin, src/http/server.go
lines 141-144: only Name and MaxAge are set, the rest are zero values. -/
def clearingCookie : Cookie := { name := "nflpickem", maxAge := -1 }

/-- The outcome of the access guard: the final response, the number of
db.CheckCredentials calls, and whether the wrapped handler ran. -/
structure GuardOut where
  w : Response
  verifierCalls : Nat
  nextInvoked : Bool

/-- requireLogin, src/http/server.go lines 136-154: verify; on failure
attach the clearing cookie and answer 401 "login required" without
invoking next; on success store the user in the context under the key
"user" and invoke next with the augmented request. -/
def Server.requireLogin (s : Server) (next : Request → Response → Response)
    (w : Response) (r : Request) : GuardOut :=
  let v := s.verifyLogin w r
  match v.err with
  | some _ =>
      ⟨WriteJSONError (setCookie v.w clearingCookie) 401 "login required",
        v.verifierCalls, false⟩
  | none =>
      ⟨next { r with ctx := r.ctx.withValue "user" (.user v.user) } v.w,
        v.verifierCalls, true⟩

/-- loginState, src/http/server.go lines 156-179: read the cookie; any
lookup failure or decode failure answers 401 "login required"; on
success write the {Name, Username} projection. The second component
counts db.CheckCredentials calls (loginState makes none). -/
def Server.loginState (s : Server) (w : Response) (r : Request) : Response × Nat :=
  match r.cookieRes with
  | .found c =>
      match s.sc.decode "nflpickem" c.value with
      | .error _ => (WriteJSONError w 401 "login required", 0)
      | .ok user => (WriteJSON w (.loginStateBody user.firstName user.email), 0)
  | _ => (WriteJSONError w 401 "login required", 0)

/-- retrieveUser, src/http/server.go lines 185-192: look up "user" in
the context and type-assert to nflpickem.User; on any failure return the
zero User and errNoUser, Go style. -/
def retrieveUser (ctx : Context) : User × Option String :=
  match ctx.value "user" with
  | some (.user u) => (u, none)
  | _ => (zeroUser, some errNoUser)

/-- currentWeek, src/http/current.go lines 11-20: call db.CurrentWeek;
on error write the 500 envelope, but (there is no return statement in
the error branch) fall through and write the week payload as well. -/
def currentWeek (db : Weeker) (w : Response) (t : Int) : Response :=
  let (week, err) := db.currentWeekAt t
  let w2 :=
    match err with
    | some e => WriteJSONError w 500 e
    | none => w
  WriteJSON w2 (.weekBody week)

/-! Concrete instances used to evaluate the model on specific inputs. -/

/-- A concrete identity, as added by the test-data generator. -/
def testUser : User := ⟨"Alice", "Tester", "alice@gmail.com"⟩

/-- The one token the concrete codec accepts. -/
def validToken : String := "sealed:alice@gmail.com"

/-- A concrete codec: encoding tags the email, decoding accepts exactly
the token for testUser and rejects everything else with the uniform
securecookie error. -/
def testCodec : SecureCookie where
  encode := fun _ u => .ok ("sealed:" ++ u.email)
  decode := fun _ v =>
    if v = validToken then .ok testUser
    else .error "securecookie: the value is not valid"

/-- A concrete credential verifier accepting one username and password. -/
def testService : Service where
  checkCredentials := fun u p =>
    if u = "alice@gmail.com" ∧ p = "password" then .ok testUser
    else .error "bad credentials"

/-- A concrete server built from the concrete codec and verifier. -/
def testServer : Server := ⟨testCodec, testService⟩

/-- A fresh response with nothing written yet. -/
def emptyResponse : Response := {}

/-- The cookie holding the valid token. -/
def goodCookie : Cookie := { name := "nflpickem", value := validToken }

/-- A request presenting the valid cookie and no Basic Auth. -/
def validCookieReq : Request := { cookieRes := .found goodCookie, basicAuth := none }

/-- A request presenting an undecodable cookie and no Basic Auth. -/
def badCookieReq : Request :=
  { cookieRes := .found { name := "nflpickem", value := "garbage" }, basicAuth := none }

/-- A request with neither cookie nor Basic Auth. -/
def noCredsReq : Request := { cookieRes := .noCookie, basicAuth := none }

/-- A request with no cookie and correct Basic Auth credentials. -/
def basicAuthReq : Request :=
  { cookieRes := .noCookie, basicAuth := some ("alice@gmail.com", "password") }

/-- A request with no cookie and a wrong Basic Auth password. -/
def badBasicReq : Request :=
  { cookieRes := .noCookie, basicAuth := some ("alice@gmail.com", "wrong") }

/-- A concrete wrapped handler that reports the identity it finds in the
request context, making it observable whether and with which context it
ran. -/
def probeNext : Request → Response → Response :=
  fun r w => WriteJSONSuccess w (retrieveUser r.ctx).1.email

/-- A concrete datastore whose CurrentWeek fails, returning the zero
week alongside the error, as Go implementations do. -/
def failingWeeker : Weeker := ⟨fun _ => (zeroWeek, some "db error")⟩

/-- The cookie newEncodedCookie produces for testUser under testCodec. -/
def sealedCookie : Cookie := { name := "nflpickem", value := validToken, httpOnly := true }

/-! Helper lemmas shared by the claim theorems. -/

/-- When the Basic Auth tier fails it leaves the response untouched and
returns the zero user, whatever the failure. -/
theorem verifyBasic_fail_shape (s : Server) (w : Response) (r : Request) (e : String)
    (h : (s.verifyBasic w r).err = some e) :
    (s.verifyBasic w r).w = w ∧ (s.verifyBasic w r).user = zeroUser := by
  unfold Server.verifyBasic at h ⊢
  cases hb : r.basicAuth with
  | none => simp [hb]
  | some up =>
    obtain ⟨u, p⟩ := up
    simp only [hb] at h ⊢
    cases hc : s.db.checkCredentials u p with
    | error e2 => simp [hc]
    | ok user =>
      simp only [hc] at h ⊢
      cases hn : s.newEncodedCookie "nflpickem" user with
      | error e2 => simp [hn]
      | ok cookie => simp [hn] at h

/-- When verifyLogin fails it leaves the response untouched and returns
the zero user. -/
theorem verifyLogin_fail_shape (s : Server) (w : Response) (r : Request) (e : String)
    (h : (s.verifyLogin w r).err = some e) :
    (s.verifyLogin w r).w = w ∧ (s.verifyLogin w r).user = zeroUser := by
  unfold Server.verifyLogin at h ⊢
  cases hcr : r.cookieRes with
  | found c =>
    simp only [hcr] at h ⊢
    cases hd : s.sc.decode "nflpickem" c.value with
    | ok u => simp [hd] at h
    | error e2 =>
      simp only [hd] at h ⊢
      exact verifyBasic_fail_shape s w r e h
  | noCookie =>
    simp only [hcr] at h ⊢
    exact verifyBasic_fail_shape s w r e h
  | otherError m =>
    simp only [hcr] at h ⊢
    exact verifyBasic_fail_shape s w r e h

/-- On any verification failure the guard responds with the clearing
cookie and the 401 envelope and does not run the wrapped handler. -/
theorem requireLogin_fail_eq (s : Server) (next : Request → Response → Response)
    (w : Response) (r : Request) (e : String)
    (h : (s.verifyLogin w r).err = some e) :
    s.requireLogin next w r =
      ⟨WriteJSONError (setCookie w clearingCookie) 401 "login required",
        (s.verifyLogin w r).verifierCalls, false⟩ := by
  have hw := (verifyLogin_fail_shape s w r e h).1
  unfold Server.requireLogin
  simp only [h, hw]

/-- When the cookie fast path fails, verifyLogin falls through to the
Basic Auth tier. -/
theorem verifyLogin_eq_verifyBasic (s : Server) (w : Response) (r : Request)
    (h : cookieFastPathFails s r = true) :
    s.verifyLogin w r = s.verifyBasic w r := by
  unfold cookieFastPathFails at h
  unfold Server.verifyLogin
  cases hcr : r.cookieRes with
  | found c =>
    simp only [hcr] at h ⊢
    cases hd : s.sc.decode "nflpickem" c.value with
    | ok u => simp [hd] at h
    | error e2 => simp [hd]
  | noCookie => simp [hcr]
  | otherError m => simp [hcr]

/-! Claim theorems. -/

/-- Claim C1: the spec claims the logout handler completes normally for
every request, cookie or no cookie, always attaching a negative-MaxAge
replacement cookie and reporting success. The code instead lets the
no-cookie error past its error check and then assigns MaxAge on the nil
cookie pointer, a nil-pointer dereference: at the failing input (a
request with no nflpickem cookie) the model reaches the panic marker
`none`. With a cookie present, valid or not, logout does complete with
the negative-MaxAge cookie and the success envelope. -/
theorem logout_no_cookie_panics :
    Server.logout testServer emptyResponse noCredsReq = none ∧
    Server.logout testServer emptyResponse badCookieReq =
      some { cookies := [{ name := "nflpickem", value := "garbage", maxAge := -1 }],
             writes := [.successEnvelope "succesful logout"] } :=
  ⟨rfl, rfl⟩

/-- Claim C2, counterexample: bad credentials presented at the login
entry point produce the 500 envelope carrying the verifier message, not
the claimed 401 "login required". -/
theorem login_bad_credentials_not_401 :
    (Server.login testServer emptyResponse badBasicReq).1.writes =
      [.errorEnvelope 500 "bad credentials"] ∧
    (Server.login testServer emptyResponse badBasicReq).1.writes ≠
      [.errorEnvelope 401 "login required"] := by
  exact ⟨rfl, by decide⟩

/-- Claim C2 (amended): every authentication failure at the access guard
(invalid or missing cookie together with bad, or missing, Basic Auth
credentials) yields status 401 with the constant message "login
required", never the underlying reason; bad credentials at the login
entry point instead yield status 500 carrying the verifier message. -/
theorem auth_failure_responses :
    (∀ (s : Server) (next : Request → Response → Response) (w : Response)
        (r : Request) (e : String),
        (s.verifyLogin w r).err = some e →
        (s.requireLogin next w r).w.writes =
          w.writes ++ [.errorEnvelope 401 "login required"]) ∧
    (∀ (s : Server) (w : Response) (r : Request) (u p e : String),
        r.basicAuth = some (u, p) → s.db.checkCredentials u p = .error e →
        s.login w r = (WriteJSONError w 500 e, 1)) := by
  constructor
  · intro s next w r e h
    rw [requireLogin_fail_eq s next w r e h]
    rfl
  · intro s w r u p e hb hc
    unfold Server.login
    simp only [hb, hc]

/-- Witness for the amended claim C2 at concrete requests. -/
theorem auth_failure_responses_witness :
    ((testServer.verifyLogin emptyResponse badCookieReq).err = some errNoLogin ∧
     (testServer.requireLogin probeNext emptyResponse badCookieReq).w.writes =
       [.errorEnvelope 401 "login required"]) ∧
    (testServer.login emptyResponse badBasicReq =
       (WriteJSONError emptyResponse 500 "bad credentials", 1)) :=
  ⟨⟨rfl, auth_failure_responses.1 testServer probeNext emptyResponse badCookieReq
      errNoLogin rfl⟩,
   auth_failure_responses.2 testServer emptyResponse badBasicReq
     "alice@gmail.com" "wrong" "bad credentials" rfl rfl⟩

/-- Claim C3: whenever verifyLogin fails, the guard attaches the
clearing cookie (name nflpickem, MaxAge -1), answers 401 "login
required", and never invokes the wrapped handler. -/
theorem guard_failure_contract :
    ∀ (s : Server) (next : Request → Response → Response) (w : Response)
      (r : Request) (e : String),
      (s.verifyLogin w r).err = some e →
      s.requireLogin next w r =
        ⟨WriteJSONError (setCookie w clearingCookie) 401 "login required",
          (s.verifyLogin w r).verifierCalls, false⟩ :=
  fun s next w r e h => requireLogin_fail_eq s next w r e h

/-- Witness for claim C3 at a request with neither cookie nor Basic
Auth. -/
theorem guard_failure_contract_witness :
    (testServer.verifyLogin emptyResponse noCredsReq).err = some errNoLogin ∧
    testServer.requireLogin probeNext emptyResponse noCredsReq =
      ⟨WriteJSONError (setCookie emptyResponse clearingCookie) 401 "login required",
        0, false⟩ :=
  ⟨rfl, guard_failure_contract testServer probeNext emptyResponse noCredsReq
     errNoLogin rfl⟩

/-- Claim C4: with a cookie that decodes, verifyLogin returns the
decoded identity with zero verifier calls and an untouched response, and
the guard runs the wrapped handler with that identity stored in the
context. -/
theorem cookie_fast_path_contract :
    ∀ (s : Server) (next : Request → Response → Response) (w : Response)
      (r : Request) (c : Cookie) (u : User),
      r.cookieRes = .found c → s.sc.decode "nflpickem" c.value = .ok u →
      s.verifyLogin w r = ⟨w, u, none, 0⟩ ∧
      s.requireLogin next w r =
        ⟨next { r with ctx := r.ctx.withValue "user" (.user u) } w, 0, true⟩ := by
  intro s next w r c u hc hd
  have hv : s.verifyLogin w r = ⟨w, u, none, 0⟩ := by
    unfold Server.verifyLogin
    simp only [hc, hd]
  refine ⟨hv, ?_⟩
  unfold Server.requireLogin
  simp only [hv]

/-- Witness for claim C4 at the request carrying the valid cookie. -/
theorem cookie_fast_path_contract_witness :
    validCookieReq.cookieRes = .found goodCookie ∧
    testServer.sc.decode "nflpickem" goodCookie.value = .ok testUser ∧
    (testServer.verifyLogin emptyResponse validCookieReq =
       ⟨emptyResponse, testUser, none, 0⟩ ∧
     testServer.requireLogin probeNext emptyResponse validCookieReq =
       ⟨probeNext
          { validCookieReq with
            ctx := validCookieReq.ctx.withValue "user" (.user testUser) }
          emptyResponse, 0, true⟩) :=
  ⟨rfl, rfl, cookie_fast_path_contract testServer probeNext emptyResponse
     validCookieReq goodCookie testUser rfl rfl⟩

/-- Claim C5: when the cookie fast path fails, verifyLogin requires
Basic Auth: absent Basic Auth fails with errNoLogin and zero verifier
calls; rejected credentials propagate the verifier error after exactly
one call; accepted credentials seal a new cookie, attach it, and return
the identity after exactly one call. -/
theorem basic_auth_fallback_contract :
    (∀ (s : Server) (w : Response) (r : Request),
        cookieFastPathFails s r = true → r.basicAuth = none →
        s.verifyLogin w r = ⟨w, zeroUser, some errNoLogin, 0⟩) ∧
    (∀ (s : Server) (w : Response) (r : Request) (u p e : String),
        cookieFastPathFails s r = true → r.basicAuth = some (u, p) →
        s.db.checkCredentials u p = .error e →
        s.verifyLogin w r = ⟨w, zeroUser, some e, 1⟩) ∧
    (∀ (s : Server) (w : Response) (r : Request) (u p : String) (user : User)
        (ck : Cookie),
        cookieFastPathFails s r = true → r.basicAuth = some (u, p) →
        s.db.checkCredentials u p = .ok user →
        s.newEncodedCookie "nflpickem" user = .ok ck →
        s.verifyLogin w r = ⟨setCookie w ck, user, none, 1⟩) := by
  refine ⟨?_, ?_, ?_⟩
  · intro s w r hf hb
    rw [verifyLogin_eq_verifyBasic s w r hf]
    unfold Server.verifyBasic
    simp only [hb]
  · intro s w r u p e hf hb hc
    rw [verifyLogin_eq_verifyBasic s w r hf]
    unfold Server.verifyBasic
    simp only [hb, hc]
  · intro s w r u p user ck hf hb hc hn
    rw [verifyLogin_eq_verifyBasic s w r hf]
    unfold Server.verifyBasic
    simp only [hb, hc, hn]

/-- Witness for claim C5: the three fallback outcomes at concrete
requests. -/
theorem basic_auth_fallback_contract_witness :
    (cookieFastPathFails testServer noCredsReq = true ∧
     testServer.verifyLogin emptyResponse noCredsReq =
       ⟨emptyResponse, zeroUser, some errNoLogin, 0⟩) ∧
    (testServer.db.checkCredentials "alice@gmail.com" "wrong" =
       .error "bad credentials" ∧
     testServer.verifyLogin emptyResponse badBasicReq =
       ⟨emptyResponse, zeroUser, some "bad credentials", 1⟩) ∧
    (testServer.newEncodedCookie "nflpickem" testUser = .ok sealedCookie ∧
     testServer.verifyLogin emptyResponse basicAuthReq =
       ⟨setCookie emptyResponse sealedCookie, testUser, none, 1⟩) :=
  ⟨⟨rfl, basic_auth_fallback_contract.1 testServer emptyResponse noCredsReq rfl rfl⟩,
   ⟨rfl, basic_auth_fallback_contract.2.1 testServer emptyResponse badBasicReq
      "alice@gmail.com" "wrong" "bad credentials" rfl rfl rfl⟩,
   ⟨rfl, basic_auth_fallback_contract.2.2 testServer emptyResponse basicAuthReq
      "alice@gmail.com" "password" testUser sealedCookie rfl rfl rfl rfl⟩⟩

/-- Claim C6: login with credentials the verifier accepts (and a codec
that seals) attaches a cookie with HttpOnly true and MaxAge unset and
writes the success envelope; login with rejected credentials attaches no
cookie and answers with a status of at least 400. -/
theorem login_outcomes :
    (∀ (s : Server) (w : Response) (r : Request) (u p : String) (user : User)
        (enc : String),
        r.basicAuth = some (u, p) →
        s.db.checkCredentials u p = .ok user →
        s.sc.encode "nflpickem" user = .ok enc →
        s.login w r =
          (WriteJSONSuccess
            (setCookie w
              { name := "nflpickem", value := enc, secure := false,
                httpOnly := true, maxAge := 0 })
            "successfully logged in", 1)) ∧
    (∀ (s : Server) (w : Response) (r : Request) (u p e : String),
        r.basicAuth = some (u, p) →
        s.db.checkCredentials u p = .error e →
        s.login w r = (WriteJSONError w 500 e, 1) ∧
        (s.login w r).1.cookies = w.cookies ∧ 400 ≤ 500) := by
  constructor
  · intro s w r u p user enc hb hc he
    unfold Server.login Server.newEncodedCookie
    simp only [hb, hc, he]
  · intro s w r u p e hb hc
    unfold Server.login
    simp only [hb, hc]
    norm_num [WriteJSONError]

/-- Witness for claim C6: concrete login requests with accepted and with
rejected credentials. -/
theorem login_outcomes_witness :
    (testServer.login emptyResponse basicAuthReq =
       (WriteJSONSuccess
         (setCookie emptyResponse
           { name := "nflpickem", value := validToken, secure := false,
             httpOnly := true, maxAge := 0 })
         "successfully logged in", 1)) ∧
    (testServer.login emptyResponse badBasicReq =
       (WriteJSONError emptyResponse 500 "bad credentials", 1) ∧
     (testServer.login emptyResponse badBasicReq).1.cookies =
       emptyResponse.cookies ∧ 400 ≤ 500) :=
  ⟨login_outcomes.1 testServer emptyResponse basicAuthReq
     "alice@gmail.com" "password" testUser validToken rfl rfl rfl,
   login_outcomes.2 testServer emptyResponse badBasicReq
     "alice@gmail.com" "wrong" "bad credentials" rfl rfl⟩

/-- Claim C7: a login request without Basic Auth fails with 400 and the
message "missing credentials", with zero verifier calls and no cookie
attached. -/
theorem login_missing_credentials :
    ∀ (s : Server) (w : Response) (r : Request),
      r.basicAuth = none →
      s.login w r = (WriteJSONError w 400 "missing credentials", 0) ∧
      (s.login w r).1.cookies = w.cookies := by
  intro s w r hb
  unfold Server.login
  simp only [hb]
  simp [WriteJSONError]

/-- Witness for claim C7 at a credential-free request. -/
theorem login_missing_credentials_witness :
    noCredsReq.basicAuth = none ∧
    testServer.login emptyResponse noCredsReq =
      (WriteJSONError emptyResponse 400 "missing credentials", 0) ∧
    (testServer.login emptyResponse noCredsReq).1.cookies =
      emptyResponse.cookies :=
  ⟨rfl, login_missing_credentials testServer emptyResponse noCredsReq rfl⟩

/-- Claim C8: loginState answers the {Name, Username} projection of the
decoded cookie identity when the cookie decodes, answers 401 "login
required" otherwise, and in both cases makes zero verifier calls and
attaches no cookie. -/
theorem loginState_contract :
    (∀ (s : Server) (w : Response) (r : Request) (c : Cookie) (u : User),
        r.cookieRes = .found c → s.sc.decode "nflpickem" c.value = .ok u →
        s.loginState w r = (WriteJSON w (.loginStateBody u.firstName u.email), 0) ∧
        (s.loginState w r).1.cookies = w.cookies) ∧
    (∀ (s : Server) (w : Response) (r : Request),
        cookieFastPathFails s r = true →
        s.loginState w r = (WriteJSONError w 401 "login required", 0) ∧
        (s.loginState w r).1.cookies = w.cookies) := by
  constructor
  · intro s w r c u hc hd
    unfold Server.loginState
    simp only [hc, hd]
    simp [WriteJSON]
  · intro s w r hf
    unfold cookieFastPathFails at hf
    unfold Server.loginState
    cases hcr : r.cookieRes with
    | found c =>
      simp only [hcr] at hf ⊢
      cases hd : s.sc.decode "nflpickem" c.value with
      | ok u => simp [hd] at hf
      | error e2 =>
        simp only [hd]
        simp [WriteJSONError]
    | noCookie =>
      simp only [hcr]
      simp [WriteJSONError]
    | otherError m =>
      simp only [hcr]
      simp [WriteJSONError]

/-- Witness for claim C8 at the valid-cookie and the garbage-cookie
requests. -/
theorem loginState_contract_witness :
    (testServer.loginState emptyResponse validCookieReq =
       (WriteJSON emptyResponse (.loginStateBody "Alice" "alice@gmail.com"), 0) ∧
     (testServer.loginState emptyResponse validCookieReq).1.cookies =
       emptyResponse.cookies) ∧
    (testServer.loginState emptyResponse badCookieReq =
       (WriteJSONError emptyResponse 401 "login required", 0) ∧
     (testServer.loginState emptyResponse badCookieReq).1.cookies =
       emptyResponse.cookies) :=
  ⟨loginState_contract.1 testServer emptyResponse validCookieReq goodCookie
     testUser rfl rfl,
   loginState_contract.2 testServer emptyResponse badCookieReq rfl⟩

/-- Claim C9: retrieveUser applied to the context the guard builds via
withValue under the key "user" returns exactly the stored identity with
no error (the newest binding wins, so exactly one identity is visible);
applied to a context with no "user" binding it returns the zero user and
the errNoUser error. -/
theorem context_identity_roundtrip :
    (∀ (ctx : Context) (u : User),
        retrieveUser (ctx.withValue "user" (.user u)) = (u, none)) ∧
    (∀ ctx : Context, ctx.value "user" = none →
        retrieveUser ctx = (zeroUser, some errNoUser)) := by
  constructor
  · intro ctx u
    unfold retrieveUser Context.withValue Context.value
    simp [Context.value.go]
  · intro ctx h
    unfold retrieveUser
    simp only [h]

/-- Witness for claim C9 at a concrete stored identity and the empty
context. -/
theorem context_identity_roundtrip_witness :
    retrieveUser (Context.withValue {} "user" (.user testUser)) = (testUser, none) ∧
    ({} : Context).value "user" = none ∧
    retrieveUser {} = (zeroUser, some errNoUser) :=
  ⟨context_identity_roundtrip.1 {} testUser, rfl,
   context_identity_roundtrip.2 {} rfl⟩

/-- Claim C10: when CurrentWeek fails, the current-week handler writes
the 500 envelope and then, because the error branch does not return,
also writes the week payload returned alongside the error into the same
response. -/
theorem currentWeek_error_double_write :
    ∀ (db : Weeker) (w : Response) (t : Int) (week : Week) (e : String),
      db.currentWeekAt t = (week, some e) →
      currentWeek db w t =
        { cookies := w.cookies,
          writes := w.writes ++ [.errorEnvelope 500 e, .payload (.weekBody week)] } := by
  intro db w t week e h
  unfold currentWeek
  simp only [h]
  simp [WriteJSON, WriteJSONError]

/-- Witness for claim C10 at a datastore whose CurrentWeek fails with
the zero week. -/
theorem currentWeek_error_double_write_witness :
    failingWeeker.currentWeekAt 0 = (zeroWeek, some "db error") ∧
    currentWeek failingWeeker emptyResponse 0 =
      { cookies := [],
        writes := [.errorEnvelope 500 "db error", .payload (.weekBody zeroWeek)] } :=
  ⟨rfl, currentWeek_error_double_write failingWeeker emptyResponse 0 zeroWeek
     "db error" rfl⟩
